import Mathlib

/-!
Verification of the DestructNote backend note-lifecycle core.

The definitions below are a shallow embedding of the TypeScript source:
  - `src/src/routes/notes.ts`   (GET /api/notes/:id, GET /api/notes/usage/:deviceId,
                                 cleanupExpiredNotes)
  - `src/src/index.ts`          (GET /note/:id page load, POST /note/:id/reveal)
  - `src/prisma/migrations/.../migration.sql` (the persisted note shape)

The persistent store is modelled as a list of note rows; Prisma calls
(`findUnique`, `update where id`, `deleteMany`) become list operations.
Timestamps are integer milliseconds.  The `setTimeout(..., 5000)` content
scrub is modelled as an explicitly returned scheduled action `(id, delayMs)`
plus a separate `scrubNote` transition that fires it.
-/

namespace DestructNote

/-- A persisted note row, mirroring the Prisma `note` model:
`id` (primary key), `content`, `viewed` (default false), `createdAt`
(default now), plus the `deviceId` recorded at creation. -/
structure Note where
  id : String
  content : String
  viewed : Bool
  createdAt : Int
  deviceId : String
  deriving Repr, DecidableEq

/-- The note store: the rows of the `note` table. -/
abbrev Store := List Note

/-- `db.note.findUnique({ where: { id } })`. -/
def dbFindUnique (s : Store) (id : String) : Option Note :=
  s.find? (fun n => n.id == id)

/-- `db.note.update({ where: { id }, data: { viewed: true } })`:
an update guarded only by the row id, not by the prior `viewed` value. -/
def dbUpdateViewed (s : Store) (id : String) : Store :=
  s.map (fun n => if n.id == id then { n with viewed := true } else n)

/-- `db.note.update({ where: { id }, data: { content: c } })`. -/
def dbUpdateContent (s : Store) (id : String) (c : String) : Store :=
  s.map (fun n => if n.id == id then { n with content := c } else n)

/-- The fixed sentinel written over a revealed note content. -/
def DESTROYED_SENTINEL : String := "[DESTROYED]"

/-- The grace delay (ms) passed to `setTimeout` before the content scrub. -/
def SCRUB_DELAY_MS : Nat := 5000

/-- The `code` field of `NoteErrorResponse` (shared/contracts.ts). -/
inductive NoteErrorCode where
  | NOT_FOUND
  | ALREADY_VIEWED
  | LIMIT_REACHED
  deriving Repr, DecidableEq

/-- Response of GET /api/notes/:id: either a `NoteErrorResponse` with an
explicit HTTP status, or a `GetNoteResponse` body (default status 200). -/
inductive ApiNoteResponse where
  | err (error : String) (code : NoteErrorCode) (status : Nat)
  | ok (content : String) (destroyed : Bool)
  deriving Repr, DecidableEq

/-- HTTP status carried by an `ApiNoteResponse` (`c.json` defaults to 200). -/
def ApiNoteResponse.status : ApiNoteResponse → Nat
  | .err _ _ st => st
  | .ok _ _ => 200

/-- A scrub action scheduled with `setTimeout`: target note id and delay. -/
abbrev ScheduledScrub := String × Nat

/-- GET /api/notes/:id ("Get and destroy a note", notes.ts lines 152-210):
find the note; absent → 404 NOT_FOUND; `viewed` → 410 ALREADY_VIEWED;
otherwise mark viewed, schedule the 5 s content scrub, and answer 200 with
the content read before the update.  Returns (response, store, scheduled). -/
def apiGetNote (s : Store) (id : String) :
    ApiNoteResponse × Store × List ScheduledScrub :=
  match dbFindUnique s id with
  | none =>
      (.err "Note not found" .NOT_FOUND 404, s, [])
  | some note =>
      if note.viewed then
        (.err "This note has already been viewed and destroyed" .ALREADY_VIEWED 410, s, [])
      else
        (.ok note.content true, dbUpdateViewed s id, [(id, SCRUB_DELAY_MS)])

/-- Response of POST /note/:id/reveal: `{ error }` with a status, or
`{ success: true }` (status 200).  Unlike the API surface it has no
`code` field. -/
inductive RevealResponse where
  | err (error : String) (status : Nat)
  | ok (success : Bool)
  deriving Repr, DecidableEq

/-- HTTP status carried by a `RevealResponse`. -/
def RevealResponse.status : RevealResponse → Nat
  | .err _ st => st
  | .ok _ => 200

/-- POST /note/:id/reveal (index.ts lines 664-709): same lookup, same
branching, same `viewed` update and same scheduled 5 s scrub as the API
surface, answering `{ success: true }` instead of the content. -/
def webReveal (s : Store) (id : String) :
    RevealResponse × Store × List ScheduledScrub :=
  match dbFindUnique s id with
  | none =>
      (.err "Note not found" 404, s, [])
  | some note =>
      if note.viewed then
        (.err "Note already viewed" 410, s, [])
      else
        (.ok true, dbUpdateViewed s id, [(id, SCRUB_DELAY_MS)])

/-- The body of the `setTimeout` callback: overwrite the content with the
sentinel, keeping the record; a missing row is silently tolerated (the
catch block), which the map-based update realises as a no-op. -/
def scrubNote (s : Store) (id : String) : Store :=
  dbUpdateContent s id DESTROYED_SENTINEL

/-- A demonstration store with one unread note, used by witnesses. -/
def demoStore : Store :=
  [{ id := "n1", content := "hello", viewed := false, createdAt := 0, deviceId := "d1" }]

/-- Claim C1: GET /api/notes/:id answers 404 NOT_FOUND when the note is
absent; 410 ALREADY_VIEWED with no state change when it is already viewed;
otherwise 200 with the stored content and `destroyed: true`, and that same
call sets the note `viewed` flag to true in the resulting store. -/
theorem apiGetNote_cases (s : Store) (id : String) :
    (dbFindUnique s id = none →
      apiGetNote s id = (.err "Note not found" .NOT_FOUND 404, s, [])) ∧
    (∀ n, dbFindUnique s id = some n → n.viewed = true →
      apiGetNote s id =
        (.err "This note has already been viewed and destroyed" .ALREADY_VIEWED 410, s, [])) ∧
    (∀ n, dbFindUnique s id = some n → n.viewed = false →
      (apiGetNote s id).1 = .ok n.content true ∧
      (apiGetNote s id).1.status = 200 ∧
      (apiGetNote s id).2.1 = dbUpdateViewed s id ∧
      (∀ m, m ∈ (apiGetNote s id).2.1 → m.id = id → m.viewed = true)) := by
  refine ⟨?_, ?_, ?_⟩
  · intro h
    simp [apiGetNote, h]
  · intro n hfind hv
    simp [apiGetNote, hfind, hv]
  · intro n hfind hv
    refine ⟨?_, ?_, ?_, ?_⟩
    · simp [apiGetNote, hfind, hv]
    · simp [apiGetNote, hfind, hv, ApiNoteResponse.status]
    · simp [apiGetNote, hfind, hv]
    · intro m hm hid
      have hm2 : m ∈ dbUpdateViewed s id := by
        simpa [apiGetNote, hfind, hv] using hm
      rcases List.mem_map.mp hm2 with ⟨n0, _, heq⟩
      by_cases hc : n0.id == id
      · simp [hc] at heq
        simp [← heq]
      · simp [hc] at heq
        subst heq
        simp_all

/-- Witness for C1: on the demonstration store the unread branch of
`apiGetNote_cases` yields the 200 response with the stored content. -/
theorem apiGetNote_cases_witness :
    (apiGetNote demoStore "n1").1 = .ok "hello" true ∧
    (apiGetNote [] "zzz").1 = .err "Note not found" .NOT_FOUND 404 := by
  constructor
  · have h := apiGetNote_cases demoStore "n1"
    exact (h.2.2 ⟨"n1", "hello", false, 0, "d1"⟩ (by decide) rfl).1
  · have h := apiGetNote_cases ([] : Store) "zzz"
    have h2 := h.1 (by decide)
    simp [h2]

/-- Looking the same id up after `dbUpdateViewed` finds the same row with
`viewed` set. -/
theorem dbFindUnique_dbUpdateViewed (s : Store) (id : String) :
    dbFindUnique (dbUpdateViewed s id) id =
      (dbFindUnique s id).map (fun n => { n with viewed := true }) := by
  induction s with
  | nil => rfl
  | cons n t ih =>
      simp only [dbFindUnique, dbUpdateViewed, List.map_cons] at ih ⊢
      by_cases hc : (n.id == id) = true
      · rw [if_pos hc]
        rw [@List.find?_cons_of_pos Note (fun m => m.id == id)
            ({ n with viewed := true }) _ hc,
          @List.find?_cons_of_pos Note (fun m => m.id == id) n _ hc]
        rfl
      · rw [if_neg hc]
        rw [@List.find?_cons_of_neg Note (fun m => m.id == id) n _ hc,
          @List.find?_cons_of_neg Note (fun m => m.id == id) n _ hc]
        exact ih

/-- Looking the same id up after `dbUpdateContent` finds the same row with
the new content. -/
theorem dbFindUnique_dbUpdateContent (s : Store) (id : String) (c : String) :
    dbFindUnique (dbUpdateContent s id c) id =
      (dbFindUnique s id).map (fun n => { n with content := c }) := by
  induction s with
  | nil => rfl
  | cons n t ih =>
      simp only [dbFindUnique, dbUpdateContent, List.map_cons] at ih ⊢
      by_cases hc : (n.id == id) = true
      · rw [if_pos hc]
        rw [@List.find?_cons_of_pos Note (fun m => m.id == id)
            ({ n with content := c }) _ hc,
          @List.find?_cons_of_pos Note (fun m => m.id == id) n _ hc]
        rfl
      · rw [if_neg hc]
        rw [@List.find?_cons_of_neg Note (fun m => m.id == id) n _ hc,
          @List.find?_cons_of_neg Note (fun m => m.id == id) n _ hc]
        exact ih

/-- After the reveal surfaces `viewed := true` update, the web reveal
surface answers 410. -/
theorem webReveal_after_update (s : Store) (id : String) (n : Note)
    (h : dbFindUnique s id = some n) :
    (webReveal (dbUpdateViewed s id) id).1.status = 410 := by
  have hf := dbFindUnique_dbUpdateViewed s id
  rw [h] at hf
  simp [webReveal, hf, RevealResponse.status]

/-- After the reveal surfaces `viewed := true` update, the JSON API
surface answers 410. -/
theorem apiGetNote_after_update (s : Store) (id : String) (n : Note)
    (h : dbFindUnique s id = some n) :
    (apiGetNote (dbUpdateViewed s id) id).1.status = 410 := by
  have hf := dbFindUnique_dbUpdateViewed s id
  rw [h] at hf
  simp [apiGetNote, hf, ApiNoteResponse.status]

/-- Claim C7: the JSON endpoint GET /api/notes/:id and the web action
POST /note/:id/reveal perform identical state transitions (same resulting
store and same scheduled scrub) and the same status classification
(404 / 410 / 200), and after either surface succeeds the other one
observes 410 on the resulting store. -/
theorem surfaces_equivalent (s : Store) (id : String) :
    (apiGetNote s id).2 = (webReveal s id).2 ∧
    (apiGetNote s id).1.status = (webReveal s id).1.status ∧
    ((apiGetNote s id).1.status = 200 →
      (webReveal (apiGetNote s id).2.1 id).1.status = 410) ∧
    ((webReveal s id).1.status = 200 →
      (apiGetNote (webReveal s id).2.1 id).1.status = 410) := by
  rcases h : dbFindUnique s id with _ | n
  · simp [apiGetNote, webReveal, h, ApiNoteResponse.status, RevealResponse.status]
  · by_cases hv : n.viewed
    · simp [apiGetNote, webReveal, h, hv, ApiNoteResponse.status, RevealResponse.status]
    · have h1 : (apiGetNote s id).2.1 = dbUpdateViewed s id := by
        simp [apiGetNote, h, hv]
      have h2 : (webReveal s id).2.1 = dbUpdateViewed s id := by
        simp [webReveal, h, hv]
      refine ⟨?_, ?_, ?_, ?_⟩
      · simp [apiGetNote, webReveal, h, hv]
      · simp [apiGetNote, webReveal, h, hv, ApiNoteResponse.status, RevealResponse.status]
      · intro _
        rw [h1]
        exact webReveal_after_update s id n h
      · intro _
        rw [h2]
        exact apiGetNote_after_update s id n h

/-- Witness for C7: on the demonstration store both surfaces classify the
unread note as a 200 success, and the losing surface then observes 410. -/
theorem surfaces_equivalent_witness :
    (apiGetNote demoStore "n1").1.status = 200 ∧
    (webReveal (apiGetNote demoStore "n1").2.1 "n1").1.status = 410 := by
  have h := surfaces_equivalent demoStore "n1"
  exact ⟨by decide, h.2.2.1 (by decide)⟩

/-- The two delivery surfaces a reveal request can arrive through. -/
inductive RevealSurface where
  | api
  | web
  deriving Repr, DecidableEq

/-- One sequential call to a reveal surface: resulting HTTP status and
resulting store. -/
def surfaceCall (s : Store) (id : String) : RevealSurface → Nat × Store
  | .api => ((apiGetNote s id).1.status, (apiGetNote s id).2.1)
  | .web => ((webReveal s id).1.status, (webReveal s id).2.1)

/-- Whether the store currently records the note as viewed. -/
def noteViewedB (s : Store) (id : String) : Bool :=
  match dbFindUnique s id with
  | some n => n.viewed
  | none => false

/-- Run a sequence of sequential reveal calls for one id, collecting the
statuses and the final store. -/
def revealRun (s : Store) (id : String) : List RevealSurface → List Nat × Store
  | [] => ([], s)
  | surf :: rest =>
      ((surfaceCall s id surf).1 ::
        (revealRun (surfaceCall s id surf).2 id rest).1,
       (revealRun (surfaceCall s id surf).2 id rest).2)

/-- Unfolding `noteViewedB = true` into the found row. -/
theorem noteViewedB_some (s : Store) (id : String)
    (h : noteViewedB s id = true) :
    ∃ n, dbFindUnique s id = some n ∧ n.viewed = true := by
  unfold noteViewedB at h
  rcases hf : dbFindUnique s id with _ | n
  · rw [hf] at h
    simp at h
  · rw [hf] at h
    exact ⟨n, rfl, h⟩

/-- A reveal call on a note already recorded as viewed answers 410 and
leaves the store unchanged. -/
theorem surfaceCall_of_viewed (s : Store) (id : String) (surf : RevealSurface)
    (h : noteViewedB s id = true) : surfaceCall s id surf = (410, s) := by
  rcases noteViewedB_some s id h with ⟨n, hf, hnv⟩
  cases surf <;>
    simp [surfaceCall, apiGetNote, webReveal, hf, hnv,
      ApiNoteResponse.status, RevealResponse.status]

/-- A reveal call that answers 200 leaves the note recorded as viewed. -/
theorem surfaceCall_success_viewed (s : Store) (id : String)
    (surf : RevealSurface) (h : (surfaceCall s id surf).1 = 200) :
    noteViewedB (surfaceCall s id surf).2 id = true := by
  rcases hf : dbFindUnique s id with _ | n
  · exfalso
    cases surf <;>
      simp [surfaceCall, apiGetNote, webReveal, hf,
        ApiNoteResponse.status, RevealResponse.status] at h
  · by_cases hv : n.viewed
    · exfalso
      cases surf <;>
        simp [surfaceCall, apiGetNote, webReveal, hf, hv,
          ApiNoteResponse.status, RevealResponse.status] at h
    · have hupd : (surfaceCall s id surf).2 = dbUpdateViewed s id := by
        cases surf <;> simp [surfaceCall, apiGetNote, webReveal, hf, hv]
      rw [hupd]
      unfold noteViewedB
      rw [dbFindUnique_dbUpdateViewed, hf]
      rfl

/-- A reveal call that does not answer 200 leaves the store unchanged. -/
theorem surfaceCall_failure_frame (s : Store) (id : String)
    (surf : RevealSurface) (h : ¬ (surfaceCall s id surf).1 = 200) :
    (surfaceCall s id surf).2 = s := by
  rcases hf : dbFindUnique s id with _ | n
  · cases surf <;> simp [surfaceCall, apiGetNote, webReveal, hf]
  · by_cases hv : n.viewed
    · cases surf <;> simp [surfaceCall, apiGetNote, webReveal, hf, hv]
    · exfalso
      apply h
      cases surf <;>
        simp [surfaceCall, apiGetNote, webReveal, hf, hv,
          ApiNoteResponse.status, RevealResponse.status]

/-- On a note recorded as viewed, every status in a reveal run is 410. -/
theorem revealRun_of_viewed (s : Store) (id : String)
    (L : List RevealSurface) (h : noteViewedB s id = true) :
    revealRun s id L = (L.map (fun _ => 410), s) := by
  induction L generalizing s with
  | nil => rfl
  | cons surf rest ih =>
      have hstep := surfaceCall_of_viewed s id surf h
      have h1 : (surfaceCall s id surf).1 = 410 := by rw [hstep]
      have h2 : (surfaceCall s id surf).2 = s := by rw [hstep]
      simp only [revealRun, h1, h2, ih s h, List.map_cons]

/-- Constant-410 status lists contain no 200. -/
theorem count_200_map_410 (L : List RevealSurface) :
    (L.map (fun _ => (410 : Nat))).count 200 = 0 := by
  rw [List.count_eq_zero]
  simp

/-- Claim C2: over any sequence of sequential reveal calls for one id,
at most one call answers 200; every call after a 200 answers 410; and a
note recorded as viewed stays viewed through the whole run. -/
theorem at_most_once_reveal (s : Store) (id : String) (L : List RevealSurface) :
    ((revealRun s id L).1.count 200 ≤ 1) ∧
    (∀ pre post, (revealRun s id L).1 = pre ++ 200 :: post →
      ∀ x ∈ post, x = 410) ∧
    (noteViewedB s id = true → noteViewedB (revealRun s id L).2 id = true) := by
  induction L generalizing s with
  | nil =>
      refine ⟨by simp [revealRun], ?_, fun h => h⟩
      intro pre post hsplit
      exfalso
      have hlen := congrArg List.length hsplit
      simp only [revealRun, List.length_nil, List.length_append,
        List.length_cons] at hlen
      omega
  | cons surf rest ih =>
      by_cases h200 : (surfaceCall s id surf).1 = 200
      · have hviewed := surfaceCall_success_viewed s id surf h200
        have hrest := revealRun_of_viewed (surfaceCall s id surf).2 id rest hviewed
        refine ⟨?_, ?_, ?_⟩
        · simp only [revealRun, hrest, h200, List.count_cons]
          rw [count_200_map_410]
          simp
        · intro pre post hsplit
          simp only [revealRun, hrest, h200] at hsplit
          cases pre with
          | nil =>
              simp only [List.nil_append, List.cons.injEq] at hsplit
              intro x hx
              rw [← hsplit.2] at hx
              rcases List.mem_map.mp hx with ⟨_, _, hval⟩
              exact hval.symm
          | cons p ptail =>
              simp only [List.cons_append, List.cons.injEq] at hsplit
              intro x hx
              have hmem : x ∈ (rest.map (fun _ => (410 : Nat))) := by
                rw [hsplit.2]
                exact List.mem_append_right _ (List.mem_cons_of_mem _ hx)
              rcases List.mem_map.mp hmem with ⟨_, _, hval⟩
              exact hval.symm
        · intro hv
          have hstep := surfaceCall_of_viewed s id surf hv
          rw [hstep] at h200
          simp at h200
      · have ihs := ih (surfaceCall s id surf).2
        refine ⟨?_, ?_, ?_⟩
        · simp only [revealRun, List.count_cons]
          have h0 : (((surfaceCall s id surf).1 : Nat) == 200) = false := by
            simpa using h200
          rw [h0]
          simpa using ihs.1
        · intro pre post hsplit
          simp only [revealRun] at hsplit
          cases pre with
          | nil =>
              simp only [List.nil_append, List.cons.injEq] at hsplit
              exact absurd hsplit.1 h200
          | cons p ptail =>
              simp only [List.cons_append, List.cons.injEq] at hsplit
              exact ihs.2.1 ptail post hsplit.2
        · intro hv
          have hstep := surfaceCall_of_viewed s id surf hv
          have h2 : (surfaceCall s id surf).2 = s := by rw [hstep]
          simp only [revealRun, h2]
          exact (ih s).2.2 hv

/-- Witness for C2: a two-call run on the demonstration store answers
200 then 410. -/
theorem at_most_once_reveal_witness :
    (revealRun demoStore "n1" [.api, .web]).1 = [200, 410] ∧
    (revealRun demoStore "n1" [.api, .web]).1.count 200 ≤ 1 ∧
    (∀ x ∈ [410], x = (410 : Nat)) := by
  have h := at_most_once_reveal demoStore "n1" [.api, .web]
  exact ⟨by decide, h.1, h.2.1 [] [410] (by decide)⟩

/-- The single-quote character (code point 39). -/
def singleQuoteChar : Char := Char.ofNat 39

/-- The backslash character (code point 92). -/
def backslashChar : Char := Char.ofNat 92

/-- Character-level effect of the injection-time escaping
`encryptedContent.replace(slash-quote-slash-g, backslash quote)`:
each single-quote character becomes backslash followed by the quote. -/
def escapeChar (ch : Char) : List Char :=
  if ch = singleQuoteChar then [backslashChar, ch] else [ch]

/-- The escaping the page template applies to the note content before
splicing it into the single-quoted JS string literal. -/
def escapeSingleQuotes (s : String) : String :=
  String.mk (s.data.flatMap escapeChar)

/-- Quote-free character lists are untouched by the escaping. -/
theorem bind_escapeChar_of_no_quote (l : List Char)
    (h : ∀ ch ∈ l, ch ≠ singleQuoteChar) :
    l.flatMap escapeChar = l := by
  induction l with
  | nil => rfl
  | cons c t ih =>
      have hc : c ≠ singleQuoteChar := h c (List.mem_cons_self c t)
      simp only [List.flatMap_cons, escapeChar, if_neg hc, List.singleton_append,
        List.cons.injEq, true_and]
      exact ih (fun ch hch => h ch (List.mem_cons_of_mem _ hch))

/-- Quote-free strings are untouched by the escaping. -/
theorem escapeSingleQuotes_of_no_quote (s : String)
    (h : ∀ ch ∈ s.data, ch ≠ singleQuoteChar) :
    escapeSingleQuotes s = s := by
  cases s with
  | mk data =>
      unfold escapeSingleQuotes
      rw [bind_escapeChar_of_no_quote data h]

/-- The result of `renderPage` inside GET /note/:id, abstracted to the
data the fixed template interpolates.  `scriptEncryptedContent` is the
exact character sequence spliced into the inline script as the
single-quoted JS string literal named `encryptedContent` (the source
escapes single quotes first); `scriptNoteId` likewise for `noteId`.
Both are absent when the decryption script is not included. -/
structure RenderedPage where
  title : String
  bodyHtml : String
  bgColor : String
  includeDecryption : Bool
  scriptEncryptedContent : Option String
  scriptNoteId : Option String
  deriving Repr, DecidableEq

/-- `renderPage(title, content, bgColor, includeDecryption,
encryptedContent, noteId)` from index.ts: the defaults of the last three
arguments are false and empty strings at call sites that omit them. -/
def renderPage (title bodyHtml bgColor : String) (includeDecryption : Bool)
    (encryptedContent noteId : String) : RenderedPage :=
  { title := title
    bodyHtml := bodyHtml
    bgColor := bgColor
    includeDecryption := includeDecryption
    scriptEncryptedContent :=
      if includeDecryption then some (escapeSingleQuotes encryptedContent) else none
    scriptNoteId := if includeDecryption then some noteId else none }

/-- Body fragment of the 404 page of GET /note/:id. -/
def notFoundPageHtml : String :=
  "<div class=\"header\"><div class=\"logo-box\"><img src=\"/uploads/logo-destructnote.png\" alt=\"DestructNote\"></div><div class=\"header-text\"><h1>Not Found</h1><p class=\"subtitle\">This note does not exist or the link is invalid</p></div></div><div class=\"error-box\"><span>⚠️</span><span class=\"error-text\">Invalid Link</span></div>"

/-- Body fragment of the 410 page of GET /note/:id. -/
def destroyedPageHtml : String :=
  "<div class=\"header\"><div class=\"logo-box\"><img src=\"/uploads/logo-destructnote.png\" alt=\"DestructNote\"></div><div class=\"header-text\"><h1>Note Destroyed</h1><p class=\"subtitle\">This note has self-destructed</p></div></div><div class=\"error-box\"><span>💥</span><span class=\"error-text\">Self-Destruct Complete</span></div>"

/-- Body fragment of the unread-note reveal page of GET /note/:id. -/
def secretNotePageHtml : String :=
  "<div class=\"header\"><div class=\"logo-box\"><img src=\"/uploads/logo-destructnote.png\" alt=\"DestructNote\"></div><div class=\"header-text\"><h1>Secret Note</h1><p class=\"subtitle\">Self-destructs after viewing</p></div></div><div class=\"encryption-badge\"><span>🔒</span><span class=\"encryption-badge-text\">End-to-end encrypted</span></div><div class=\"warning-box\"><span>⚠️</span><span class=\"warning-text\">This note will self-destruct after you read it!</span></div><div id=\"reveal-section\"><div class=\"info-box\"><p class=\"info-text\">Someone sent you a secret note. Once you reveal it, the note will be permanently destroyed and cannot be viewed again.</p></div><div class=\"center\"><button id=\"reveal-btn\" class=\"button reveal-button\"><span>👁️</span> Reveal Secret Note</button></div></div><div id=\"loading\" class=\"loading\" style=\"display:none;\">Decrypting...</div><div id=\"note-box\" class=\"note-box\" style=\"display:none;\"><p id=\"note-content\" class=\"note-content\"></p></div><div id=\"decryption-error\" class=\"error-box\" style=\"display:none;\"><span>⚠️</span><span class=\"error-text\">Decryption failed</span></div><div id=\"destroyed-box\" class=\"destroyed-box\" style=\"display:none;\"><p class=\"destroyed-text\">This note has been destroyed</p></div>"

/-- GET /note/:id (index.ts lines 554-658): a pure read.  Absent → 404
page; viewed → 410 page; otherwise a 200 page that includes the
decryption script with the stored content spliced in, performing no
mutation (the note is not marked viewed here).  Returns
(status, page, store). -/
def webPageLoad (s : Store) (id : String) : Nat × RenderedPage × Store :=
  match dbFindUnique s id with
  | none =>
      (404, renderPage "Not Found" notFoundPageHtml "#E74C3C" false "" "", s)
  | some note =>
      if note.viewed then
        (410, renderPage "Note Destroyed" destroyedPageHtml "#FF8A00" false "" "", s)
      else
        (200, renderPage "Secret Note" secretNotePageHtml "#00FF85" true note.content id, s)

/-- Repeated page loads of the same note id. -/
def pageLoadIter (s : Store) (id : String) : Nat → Store
  | 0 => s
  | k + 1 => (webPageLoad (pageLoadIter s id k) id).2.2

/-- The store component of a page load is the input store. -/
theorem webPageLoad_store (s : Store) (id : String) :
    (webPageLoad s id).2.2 = s := by
  unfold webPageLoad
  rcases h : dbFindUnique s id with _ | n
  · rfl
  · by_cases hv : n.viewed = true <;> simp [hv]

/-- Claim C4: GET /note/:id performs no mutation: the store (hence every
note row, its viewed flag, content and existence) is identical before and
after the request, in every case and for any number of repetitions. -/
theorem webPageLoad_no_mutation (s : Store) (id : String) (k : Nat) :
    (webPageLoad s id).2.2 = s ∧ pageLoadIter s id k = s := by
  refine ⟨webPageLoad_store s id, ?_⟩
  induction k with
  | zero => rfl
  | succ m ih =>
      unfold pageLoadIter
      rw [ih, webPageLoad_store]

/-- A single-quote-containing demonstration content. -/
def quoteContent : String := "a" ++ String.singleton singleQuoteChar ++ "b"

/-- A store whose unread note content contains a single quote. -/
def quoteStore : Store :=
  [{ id := "n2", content := quoteContent, viewed := false, createdAt := 0,
     deviceId := "d1" }]

/-- Counterexample to C5 as stated: when the stored content contains a
single quote, the page source splices the escaped form into the
`encryptedContent` script literal, not the stored content verbatim. -/
theorem webPageLoad_verbatim_cex :
    (webPageLoad quoteStore "n2").1 = 200 ∧
    (webPageLoad quoteStore "n2").2.1.scriptEncryptedContent ≠ some quoteContent := by
  constructor
  · decide
  · decide

/-- Claim C5 (amended): for an existing unread note, GET /note/:id answers
200 without mutating the store, and its page embeds the stored content as
the `encryptedContent` script literal after single-quote escaping — so the
content is disclosed by the page load alone, before any reveal flips the
viewed flag; the embedding is verbatim exactly when the content contains
no single quote. -/
theorem webPageLoad_unread (s : Store) (id : String) (n : Note)
    (hfind : dbFindUnique s id = some n) (hv : n.viewed = false) :
    (webPageLoad s id).1 = 200 ∧
    (webPageLoad s id).2.2 = s ∧
    (webPageLoad s id).2.1.includeDecryption = true ∧
    (webPageLoad s id).2.1.scriptEncryptedContent =
      some (escapeSingleQuotes n.content) ∧
    (webPageLoad s id).2.1.scriptNoteId = some id ∧
    ((∀ ch ∈ n.content.data, ch ≠ singleQuoteChar) →
      (webPageLoad s id).2.1.scriptEncryptedContent = some n.content) := by
  refine ⟨?_, webPageLoad_store s id, ?_, ?_, ?_, ?_⟩
  · simp [webPageLoad, hfind, hv]
  · simp [webPageLoad, hfind, hv, renderPage]
  · simp [webPageLoad, hfind, hv, renderPage]
  · simp [webPageLoad, hfind, hv, renderPage]
  · intro hq
    simp [webPageLoad, hfind, hv, renderPage, escapeSingleQuotes_of_no_quote n.content hq]

/-- Witness for C5 (amended): the quote-free demonstration content is
embedded verbatim by the 200 page load, with the store unchanged. -/
theorem webPageLoad_unread_witness :
    (webPageLoad demoStore "n1").1 = 200 ∧
    (webPageLoad demoStore "n1").2.1.scriptEncryptedContent = some "hello" ∧
    (webPageLoad demoStore "n1").2.2 = demoStore := by
  have h := webPageLoad_unread demoStore "n1" ⟨"n1", "hello", false, 0, "d1"⟩
    (by decide) rfl
  exact ⟨h.1, h.2.2.2.2.2 (by decide), h.2.1⟩

/-- Claim C6: revealing an unread note leaves its row with the original
content and viewed already true, schedules the deferred scrub with the
fixed 5000 ms grace delay, and firing that scrub overwrites the content
with the fixed sentinel while retaining the record with viewed still true:
the state sequence unread → (content, viewed) → (sentinel, viewed), never
reversed. -/
theorem reveal_then_scrub_lifecycle (s : Store) (id : String) (n : Note)
    (hfind : dbFindUnique s id = some n) (hv : n.viewed = false) :
    (apiGetNote s id).2.2 = [(id, SCRUB_DELAY_MS)] ∧
    SCRUB_DELAY_MS = 5000 ∧
    dbFindUnique (apiGetNote s id).2.1 id = some { n with viewed := true } ∧
    dbFindUnique (scrubNote (apiGetNote s id).2.1 id) id =
      some { n with viewed := true, content := DESTROYED_SENTINEL } ∧
    DESTROYED_SENTINEL = "[DESTROYED]" := by
  have hstore : (apiGetNote s id).2.1 = dbUpdateViewed s id := by
    simp [apiGetNote, hfind, hv]
  refine ⟨?_, rfl, ?_, ?_, rfl⟩
  · simp [apiGetNote, hfind, hv]
  · rw [hstore, dbFindUnique_dbUpdateViewed, hfind]
    rfl
  · rw [hstore]
    unfold scrubNote
    rw [dbFindUnique_dbUpdateContent, dbFindUnique_dbUpdateViewed, hfind]
    rfl

/-- Witness for C6: the demonstration note passes through
(hello, viewed) and then ([DESTROYED], viewed). -/
theorem reveal_then_scrub_lifecycle_witness :
    dbFindUnique (apiGetNote demoStore "n1").2.1 "n1" =
      some { id := "n1", content := "hello", viewed := true, createdAt := 0,
             deviceId := "d1" } ∧
    dbFindUnique (scrubNote (apiGetNote demoStore "n1").2.1 "n1") "n1" =
      some { id := "n1", content := "[DESTROYED]", viewed := true,
             createdAt := 0, deviceId := "d1" } := by
  have h := reveal_then_scrub_lifecycle demoStore "n1"
    ⟨"n1", "hello", false, 0, "d1"⟩ (by decide) rfl
  exact ⟨h.2.2.1, h.2.2.2.1⟩

/-- `DAYS_UNTIL_EXPIRY` from the cleanup utility. -/
def DAYS_UNTIL_EXPIRY : Nat := 30

/-- Milliseconds per day, used to model the 30-day cutoff computation. -/
def MS_PER_DAY : Nat := 24 * 60 * 60 * 1000

/-- The cutoff `expiryDate = now minus 30 days` of `cleanupExpiredNotes`. -/
def expiryCutoff (now : Int) : Int :=
  now - (DAYS_UNTIL_EXPIRY : Int) * (MS_PER_DAY : Int)

/-- The `deleteMany` predicate: `viewed = false` and `createdAt < expiryDate`. -/
def noteExpired (now : Int) (n : Note) : Bool :=
  !n.viewed && decide (n.createdAt < expiryCutoff now)

/-- `cleanupExpiredNotes` (noteCleanup.ts): delete all unread notes older
than 30 days, returning the surviving store and the deleted count. -/
def cleanupExpiredNotes (s : Store) (now : Int) : Store × Nat :=
  (s.filter (fun n => !(noteExpired now n)), (s.filter (noteExpired now)).length)

/-- Claim C8: one sweep run deletes exactly the unread notes older than
the 30-day window: every such note is gone, every viewed note survives
regardless of age, and every younger unread note survives. -/
theorem cleanup_exact (s : Store) (now : Int) (n : Note) (hn : n ∈ s) :
    (n.viewed = false → n.createdAt < expiryCutoff now →
      n ∉ (cleanupExpiredNotes s now).1) ∧
    (n.viewed = true → n ∈ (cleanupExpiredNotes s now).1) ∧
    (n.viewed = false → ¬ n.createdAt < expiryCutoff now →
      n ∈ (cleanupExpiredNotes s now).1) := by
  refine ⟨?_, ?_, ?_⟩
  · intro hv hold hmem
    rcases List.mem_filter.mp hmem with ⟨_, hp⟩
    simp [noteExpired, hv, hold] at hp
  · intro hv
    exact List.mem_filter.mpr ⟨hn, by simp [noteExpired, hv]⟩
  · intro hv hyoung
    exact List.mem_filter.mpr ⟨hn, by simp [noteExpired, hv, hyoung]⟩

/-- Three sweep-demonstration rows: an expired unread note, an equally old
viewed note, and a fresh unread note, with the sweep run at time
10^13 ms. -/
def sweepStore : Store :=
  [{ id := "old-unread", content := "a", viewed := false, createdAt := 0,
     deviceId := "d" },
   { id := "old-viewed", content := "b", viewed := true, createdAt := 0,
     deviceId := "d" },
   { id := "new-unread", content := "c", viewed := false,
     createdAt := 9999999999999, deviceId := "d" }]

/-- Witness for C8: on the sweep demonstration store exactly the old
unread note is deleted. -/
theorem cleanup_exact_witness :
    ({ id := "old-unread", content := "a", viewed := false, createdAt := 0,
       deviceId := "d" } : Note) ∉
        (cleanupExpiredNotes sweepStore 10000000000000).1 ∧
    ({ id := "old-viewed", content := "b", viewed := true, createdAt := 0,
       deviceId := "d" } : Note) ∈
        (cleanupExpiredNotes sweepStore 10000000000000).1 ∧
    ({ id := "new-unread", content := "c", viewed := false,
       createdAt := 9999999999999, deviceId := "d" } : Note) ∈
        (cleanupExpiredNotes sweepStore 10000000000000).1 := by
  have h1 := cleanup_exact sweepStore 10000000000000
    { id := "old-unread", content := "a", viewed := false, createdAt := 0,
      deviceId := "d" } (by decide)
  have h2 := cleanup_exact sweepStore 10000000000000
    { id := "old-viewed", content := "b", viewed := true, createdAt := 0,
      deviceId := "d" } (by decide)
  have h3 := cleanup_exact sweepStore 10000000000000
    { id := "new-unread", content := "c", viewed := false,
      createdAt := 9999999999999, deviceId := "d" } (by decide)
  exact ⟨h1.1 rfl (by decide), h2.2.1 rfl, h3.2.2 rfl (by decide)⟩

/-- Counterexample to C9: the reveal→scrub history leaves a row whose
lookup answers 410 ALREADY_VIEWED, while a never-existing id receives
404 NOT_FOUND — the scrubbed history is distinguishable, contrary to the
claim that all three histories yield the same NotFound category. -/
theorem notFound_indistinguishable_cex :
    (apiGetNote (scrubNote (apiGetNote demoStore "n1").2.1 "n1") "n1").1.status = 410 ∧
    (apiGetNote ([] : Store) "n1").1.status = 404 ∧
    (apiGetNote (scrubNote (apiGetNote demoStore "n1").2.1 "n1") "n1").1 ≠
      (apiGetNote ([] : Store) "n1").1 := by
  refine ⟨by decide, by decide, by decide⟩

/-- Claim C9 (amended): a lookup of an id absent from the store — whether
it never existed or the sweep deleted it — receives the identical
404 NOT_FOUND response, so those two histories are indistinguishable; but
the reveal→scrub history retains the row with viewed = true, so its lookup
instead answers 410 ALREADY_VIEWED and is distinguishable. -/
theorem notFound_vs_scrubbed (s s0 : Store) (id id2 : String) (n0 : Note)
    (h1 : dbFindUnique s id = none)
    (h0 : dbFindUnique s0 id2 = some n0) (hv0 : n0.viewed = false) :
    (apiGetNote s id).1 = .err "Note not found" .NOT_FOUND 404 ∧
    (∀ s3 id3, dbFindUnique s3 id3 = none →
      (apiGetNote s3 id3).1 = (apiGetNote s id).1) ∧
    (apiGetNote (scrubNote (apiGetNote s0 id2).2.1 id2) id2).1 =
      .err "This note has already been viewed and destroyed" .ALREADY_VIEWED 410 := by
  refine ⟨?_, ?_, ?_⟩
  · simp [apiGetNote, h1]
  · intro s3 id3 h3
    simp [apiGetNote, h1, h3]
  · have hstore : (apiGetNote s0 id2).2.1 = dbUpdateViewed s0 id2 := by
      simp [apiGetNote, h0, hv0]
    rw [hstore]
    unfold scrubNote
    have hfind2 : dbFindUnique (dbUpdateContent (dbUpdateViewed s0 id2) id2
        DESTROYED_SENTINEL) id2 =
        some { n0 with viewed := true, content := DESTROYED_SENTINEL } := by
      rw [dbFindUnique_dbUpdateContent, dbFindUnique_dbUpdateViewed, h0]
      rfl
    simp [apiGetNote, hfind2]

/-- Witness for C9 (amended): concrete instantiation on the demonstration
store and an absent id. -/
theorem notFound_vs_scrubbed_witness :
    (apiGetNote ([] : Store) "zz").1 = .err "Note not found" .NOT_FOUND 404 ∧
    (apiGetNote (scrubNote (apiGetNote demoStore "n1").2.1 "n1") "n1").1 =
      .err "This note has already been viewed and destroyed" .ALREADY_VIEWED 410 := by
  have h := notFound_vs_scrubbed ([] : Store) demoStore "zz" "n1"
    ⟨"n1", "hello", false, 0, "d1"⟩ (by decide) (by decide) rfl
  exact ⟨h.1, h.2.2⟩

/-- The free-tier note limit (`FREE_NOTE_LIMIT` in notes.ts). -/
def FREE_NOTE_LIMIT : Nat := 5

/-- A row of the `noteUsage` table: the lifetime usage record of a device. -/
structure NoteUsage where
  id : Nat
  deviceId : String
  month : Int
  year : Int
  count : Nat
  isPremium : Bool
  deriving Repr, DecidableEq

/-- Results of the fallible database and RevenueCat collaborators that
GET /api/notes/usage/:deviceId consults inside its try block; each field
is what that call would produce for this request (a thrown exception is
the error case). -/
structure UsageDbOps where
  findFirst : Except String (Option NoteUsage)
  create : Except String NoteUsage
  setPremium : NoteUsage → Except String NoteUsage
  revenueCatConfigured : Bool
  hasActivePremium : Except String Bool

/-- `getOrCreateUsage(deviceId, verifySubscription)` (notes.ts lines
21-52): find the most recent usage record, create one when absent, and —
when verification is requested, the record is not premium and RevenueCat
is configured — consult RevenueCat and upgrade the record on an active
entitlement. -/
def getOrCreateUsage (ops : UsageDbOps) (verifySubscription : Bool) :
    Except String NoteUsage := do
  let usage ← (do
    match ← ops.findFirst with
    | some u => pure u
    | none => ops.create)
  if verifySubscription && !usage.isPremium && ops.revenueCatConfigured then
    let hasPremium ← ops.hasActivePremium
    if hasPremium then ops.setPremium usage else pure usage
  else
    pure usage

/-- The JSON body of `NoteUsageResponse` plus the HTTP status. -/
structure NoteUsageResponse where
  status : Nat
  count : Nat
  limit : Nat
  isPremium : Bool
  canCreate : Bool
  deriving Repr, DecidableEq

/-- GET /api/notes/usage/:deviceId (notes.ts lines 57-81): report the
usage row; the catch block answers 200 with the fixed body
count 0, limit 5, isPremium false, canCreate true. -/
def getUsageEndpoint (ops : UsageDbOps) : NoteUsageResponse :=
  match getOrCreateUsage ops true with
  | .ok usage =>
      { status := 200, count := usage.count, limit := FREE_NOTE_LIMIT,
        isPremium := usage.isPremium,
        canCreate := usage.isPremium || decide (usage.count < FREE_NOTE_LIMIT) }
  | .error _ =>
      { status := 200, count := 0, limit := FREE_NOTE_LIMIT,
        isPremium := false, canCreate := true }

/-- Claim C10: when the database lookup inside the usage endpoint throws,
the endpoint still answers 200 with count 0, limit 5, isPremium false and
canCreate true — the creation-eligibility check fails open instead of
surfacing an error status. -/
theorem usage_fails_open (ops : UsageDbOps) (e : String)
    (h : ops.findFirst = .error e) :
    getUsageEndpoint ops =
      { status := 200, count := 0, limit := FREE_NOTE_LIMIT,
        isPremium := false, canCreate := true } ∧
    FREE_NOTE_LIMIT = 5 ∧
    (getUsageEndpoint ops).canCreate = true := by
  have herr : getOrCreateUsage ops true = .error e := by
    simp [getOrCreateUsage, h, Bind.bind, Except.bind]
  refine ⟨?_, rfl, ?_⟩ <;> simp [getUsageEndpoint, herr]

/-- A collaborator record whose database lookup throws. -/
def failingOps : UsageDbOps :=
  { findFirst := .error "db down"
    create := .error "db down"
    setPremium := fun _ => .error "db down"
    revenueCatConfigured := false
    hasActivePremium := .error "db down" }

/-- Witness for C10: the failing collaborators still produce the 200
fail-open body. -/
theorem usage_fails_open_witness :
    getUsageEndpoint failingOps =
      { status := 200, count := 0, limit := FREE_NOTE_LIMIT,
        isPremium := false, canCreate := true } := by
  exact (usage_fails_open failingOps "db down" rfl).1

/-- What a reveal handler observes from its initial `findUnique` read:
the three evaluate outcomes NotFound, AlreadyDestroyed, Revealable. -/
inductive ReadObservation where
  | absent
  | alreadyViewed
  | unread (content : String)
  deriving Repr, DecidableEq

/-- The read step both reveal handlers start with. -/
def evalRead (s : Store) (id : String) : ReadObservation :=
  match dbFindUnique s id with
  | none => .absent
  | some n => if n.viewed then .alreadyViewed else .unread n.content

/-- The write step a reveal handler performs after observing an unread
note: a separate `update` statement whose WHERE clause names only the id,
not the prior viewed value. -/
def evalWrite (s : Store) (id : String) : Store :=
  dbUpdateViewed s id

/-- Interleaved execution of two concurrent reveal requests A and B on
the same id, scheduled read-A, read-B, write-A, write-B.  Reads do not
change the store, so both observations come from the initial store; each
request performs its write only when it observed an unread note.
Returns both observed outcomes and the final store. -/
def racedReveal (s : Store) (id : String) :
    (ReadObservation × ReadObservation) × Store :=
  let obsA := evalRead s id
  let obsB := evalRead s id
  let s1 := match obsA with
    | .unread _ => evalWrite s id
    | _ => s
  let s2 := match obsB with
    | .unread _ => evalWrite s1 id
    | _ => s1
  ((obsA, obsB), s2)

/-- Whether an observation is the Revealable outcome. -/
def ReadObservation.isRevealable : ReadObservation → Bool
  | .unread _ => true
  | _ => false

/-- Counterexample to C3: on the unread demonstration note, the
read-read-write-write interleaving lets both racing requests observe
Revealable, so the viewed check-and-set of the source is not a single
atomic conditional update and at-most-one-Revealable fails under
concurrency. -/
theorem raced_reveal_cex :
    (racedReveal demoStore "n1").1.1 = .unread "hello" ∧
    (racedReveal demoStore "n1").1.2 = .unread "hello" ∧
    ¬ ((racedReveal demoStore "n1").1.1.isRevealable = false ∨
        (racedReveal demoStore "n1").1.2.isRevealable = false) := by
  refine ⟨by decide, by decide, by decide⟩

/-- Claim C3 (amended): the source performs the viewed check-and-set as a
`findUnique` read followed by a separate `update` write guarded only by
the id; consequently, for any unread note, the interleaving
read-read-write-write makes both concurrent requests observe Revealable
(the final store still records the note as viewed). -/
theorem raced_reveal_double (s : Store) (id : String) (n : Note)
    (hfind : dbFindUnique s id = some n) (hv : n.viewed = false) :
    (racedReveal s id).1.1 = .unread n.content ∧
    (racedReveal s id).1.2 = .unread n.content ∧
    (racedReveal s id).2 = evalWrite (evalWrite s id) id := by
  have hobs : evalRead s id = .unread n.content := by
    simp [evalRead, hfind, hv]
  refine ⟨hobs, hobs, ?_⟩
  simp only [racedReveal, hobs]

/-- Witness for C3 (amended): the interleaving on the demonstration store
yields the double Revealable concretely. -/
theorem raced_reveal_double_witness :
    (racedReveal demoStore "n1").1.1 = .unread "hello" ∧
    (racedReveal demoStore "n1").1.2 = .unread "hello" := by
  have h := raced_reveal_double demoStore "n1" ⟨"n1", "hello", false, 0, "d1"⟩
    (by decide) rfl
  exact ⟨h.1, h.2.1⟩

end DestructNote
